import Mathlib

/-!
# supervisord: the `version` subcommand (`version.go`)

A shallow embedding of `version.go`: the two package-level build strings, the
`VersionCommand` handler with its `Execute` method, and the package `init`
that registers the handler with the command parser.

Go strings are modelled by Lean strings.  `fmt.Println` copies a string operand
into its buffer unchanged, so nothing below depends on how a string is encoded.
Standard output is modelled explicitly: every `Write` call is logged, and each
call may succeed, fail with a returned error, or hit a closed pipe, as decided
by a list of outcomes carried in the state.  A write on standard output that
hits a closed pipe does not return: the Go runtime raises SIGPIPE and the
process dies inside the call.  A call that does not return is the result
`none`; the program state at that point is the final one.  Counts and partial
writes are measured in characters of the model.
-/

namespace Supervisord

/-! ## Go values used by the file -/

/-- Go `error`: `none` is `nil`, `some msg` is a non-nil error. -/
abbrev error := Option String

/-- Outcome of one `Write` call on standard output: the whole buffer is taken
(`ok`); the call fails after taking the first `accepted` characters and returns
the error (`fail`, as for a full disk or a closed descriptor); or the write
hits a closed pipe after taking the first `accepted` characters (`sigpipe`), on
which `os.(*File).Write` raises SIGPIPE for descriptors 1 and 2 and the process
dies without the call returning. -/
inductive WriteOutcome where
  | ok
  | fail (accepted : Nat)
  | sigpipe (accepted : Nat)
  deriving DecidableEq, Repr

/-- Whether a `Write` call with this outcome returns to its caller. -/
def WriteOutcome.returns : WriteOutcome → Bool
  | WriteOutcome.ok => true
  | WriteOutcome.fail _ => true
  | WriteOutcome.sigpipe _ => false

/-- The standard output stream `os.Stdout`.
`content` is what reached the stream, `calls` lists every buffer handed to
`Write` in call order, and `outcomes` fixes the outcome of the calls still to
come (a call with no outcome listed succeeds). -/
structure Stdout where
  content : String
  calls : List String
  outcomes : List WriteOutcome
  deriving DecidableEq, Repr

/-- Function `os.Stdout.Write(b)`: the count taken and the error when the call
returns, `none` when the process is killed inside the call, and the stream
afterwards. -/
def Stdout.Write (b : String) (s : Stdout) : Option (Nat × error) × Stdout :=
  match s.outcomes with
  | [] =>
    (some (b.length, none),
      { content := s.content ++ b, calls := s.calls ++ [b], outcomes := [] })
  | WriteOutcome.ok :: rest =>
    (some (b.length, none),
      { content := s.content ++ b, calls := s.calls ++ [b], outcomes := rest })
  | WriteOutcome.fail accepted :: rest =>
    (some (min accepted b.length, some "write error"),
      { content := s.content ++ String.mk (b.data.take accepted),
        calls := s.calls ++ [b], outcomes := rest })
  | WriteOutcome.sigpipe accepted :: rest =>
    (none,
      { content := s.content ++ String.mk (b.data.take accepted),
        calls := s.calls ++ [b], outcomes := rest })

/-- Loop of `fmt.(*pp).doPrintln` over string operands: a space goes before
every operand but the first, and each operand is copied as it is. -/
def doPrintln.loop : List String → Nat → String → String
  | [], _, buf => buf
  | arg :: rest, argNum, buf =>
    let buf := if argNum > 0 then buf.push ' ' else buf
    doPrintln.loop rest (argNum + 1) (buf ++ arg)

/-- Function `fmt.(*pp).doPrintln`: the operands separated by single spaces,
then a line feed. -/
def doPrintln (a : List String) : String :=
  (doPrintln.loop a 0 "").push '\n'

/-! ## The program state -/

/-- The empty struct `VersionCommand`. -/
structure VersionCommand where
  deriving DecidableEq, Repr

/-- The data a registered command carries (`data interface{}`): a pointer to a
package-level handler.  `other` stands for handlers of the rest of the
program. -/
inductive CommandData where
  | versionCommand
  | other (name : String)
  deriving DecidableEq, Repr

/-- One command known to the parser. -/
structure Command where
  Name : String
  ShortDescription : String
  LongDescription : String
  data : CommandData
  deriving DecidableEq, Repr

/-- Modelled from the spec: the package variable `parser` and its `AddCommand`
method are not part of `version.go`; the spec describes them as a
command-registration facility with an "add subcommand" operation taking a
name, a short help, a long help and a handler.  The parser is the list of
commands registered so far, in registration order. -/
structure Parser where
  commands : List Command
  deriving DecidableEq, Repr

/-- Modelled from the spec: `parser.AddCommand(name, short, long, data)`, the
"add subcommand" operation of the registration facility, which is not part of
`version.go`.  It records the new command after those already registered and
returns it with a nil error. -/
def Parser.AddCommand (p : Parser) (command shortDescription longDescription : String)
    (data : CommandData) : (Command × error) × Parser :=
  let cmd : Command := ⟨command, shortDescription, longDescription, data⟩
  ((cmd, none), { commands := p.commands ++ [cmd] })

/-- Initial value of the package variable `VERSION`. -/
def VERSION : String := "dev"

/-- Initial value of the package variable `COMMIT`. -/
def COMMIT : String := "unknown"

/-- The package variable `versionCommand`. -/
def versionCommand : VersionCommand := {}

/-- Everything the file reads or writes: the two build strings as they are in
the running binary (the linker may have replaced the initial values), the
parser, and standard output. -/
structure World where
  VERSION : String
  COMMIT : String
  parser : Parser
  stdout : Stdout
  deriving DecidableEq, Repr

/-- A binary linked without `-X` overrides: both strings keep their initial
values. -/
def defaultWorld (parser : Parser) (stdout : Stdout) : World :=
  { VERSION := VERSION, COMMIT := COMMIT, parser := parser, stdout := stdout }

/-- Function `fmt.Println(a...)`: formats the operands and hands the buffer to
standard output in one `Write` call; it returns what `Write` returns, and
does not return when `Write` does not. -/
def Println (a : List String) (w : World) : Option (Nat × error) × World :=
  let r := w.stdout.Write (doPrintln a)
  (r.1, { w with stdout := r.2 })

/-! ## `version.go` -/

/-- Method `VersionCommand.Execute`: two `Println` calls whose results are
dropped, then `return nil`.  The result is `some none` when `Execute` returns
nil, and `none` when the process is killed inside one of the `Println` calls,
in which case nothing after that call runs. -/
def VersionCommand.Execute (_v : VersionCommand) (_args : List String) (w : World) :
    Option error × World :=
  match Println ["Version:", w.VERSION] w with
  | (none, w1) => (none, w1)
  | (some _, w1) =>
    match Println [" Commit:", w1.COMMIT] w1 with
    | (none, w2) => (none, w2)
    | (some _, w2) => (some none, w2)

/-- Function `init`: one `parser.AddCommand` call whose results are dropped. -/
def init (w : World) : World :=
  let r := w.parser.AddCommand "version"
    "show the version of supervisor"
    "display the supervisor version"
    CommandData.versionCommand
  { w with parser := r.2 }

/-! ## Derived observations -/

/-- The buffers `Execute` hands to standard output, in call order: the calls
logged after the run, without those logged before. -/
def executeCalls (args : List String) (w : World) : List String :=
  ((versionCommand.Execute args w).2.stdout.calls).drop w.stdout.calls.length

/-- The text `Execute` writes to standard output: its buffers joined. -/
def executeOutput (args : List String) (w : World) : String :=
  String.join (executeCalls args w)

/-- A world with the given build strings, an empty parser and a fresh standard
output that takes every write. -/
def World.ofBuild (V C : String) : World :=
  { VERSION := V, COMMIT := C, parser := ⟨[]⟩, stdout := ⟨"", [], []⟩ }

/-- The next `n` writes on the stream succeed. -/
def Stdout.accepts (s : Stdout) (n : Nat) : Bool :=
  (s.outcomes.take n).all (fun o => decide (o = WriteOutcome.ok))

/-- The next `n` writes on the stream return to their caller, with or without
an error: none of them hits a closed pipe. -/
def Stdout.returns (s : Stdout) (n : Nat) : Bool :=
  (s.outcomes.take n).all WriteOutcome.returns

/-- Number of line feeds in a string. -/
def lineFeeds (s : String) : Nat := s.data.count '\n'

/-! ## Basic facts -/

theorem doPrintln_pair (label value : String) :
    doPrintln [label, value] = label ++ " " ++ value ++ "\n" := by
  apply String.ext
  simp [doPrintln, doPrintln.loop]

theorem Write_calls (b : String) (s : Stdout) :
    (s.Write b).2.calls = s.calls ++ [b] := by
  unfold Stdout.Write
  split <;> rfl

theorem Write_outcomes (b : String) (s : Stdout) :
    (s.Write b).2.outcomes = s.outcomes.drop 1 := by
  unfold Stdout.Write
  split <;> simp_all

theorem Execute_of_returns (v : VersionCommand) (args : List String) (w : World)
    (h : w.stdout.returns 2 = true) :
    (v.Execute args w).1 = some none
      ∧ (v.Execute args w).2.stdout.calls
          = w.stdout.calls
              ++ ["Version: " ++ w.VERSION ++ "\n", " Commit: " ++ w.COMMIT ++ "\n"]
      ∧ (v.Execute args w).2.stdout.outcomes = w.stdout.outcomes.drop 2 := by
  obtain ⟨V, C, p, ⟨content, calls, outcomes⟩⟩ := w
  rcases outcomes with _ | ⟨o1, _ | ⟨o2, rest⟩⟩
  · simp [VersionCommand.Execute, Println, Stdout.Write, doPrintln_pair]
  · cases o1 <;>
      simp [VersionCommand.Execute, Println, Stdout.Write, doPrintln_pair, Stdout.returns,
        WriteOutcome.returns] at h ⊢
  · cases o1 <;> cases o2 <;>
      simp [VersionCommand.Execute, Println, Stdout.Write, doPrintln_pair, Stdout.returns,
        WriteOutcome.returns] at h ⊢

theorem Execute_calls (v : VersionCommand) (args : List String) (w : World)
    (h : w.stdout.returns 2 = true) :
    (v.Execute args w).2.stdout.calls
      = w.stdout.calls ++ ["Version: " ++ w.VERSION ++ "\n", " Commit: " ++ w.COMMIT ++ "\n"] :=
  (Execute_of_returns v args w h).2.1

theorem executeCalls_eq (args : List String) (w : World) (h : w.stdout.returns 2 = true) :
    executeCalls args w
      = ["Version: " ++ w.VERSION ++ "\n", " Commit: " ++ w.COMMIT ++ "\n"] := by
  simp [executeCalls, Execute_calls versionCommand args w h]

theorem executeOutput_eq (args : List String) (w : World) (h : w.stdout.returns 2 = true) :
    executeOutput args w
      = "Version: " ++ w.VERSION ++ "\n" ++ " Commit: " ++ w.COMMIT ++ "\n" := by
  rw [executeOutput, executeCalls_eq args w h]
  apply String.ext
  simp [String.join]

theorem returns_of_accepts (s : Stdout) (n : Nat) (h : s.accepts n = true) :
    s.returns n = true := by
  simp only [Stdout.accepts, Stdout.returns, List.all_eq_true, decide_eq_true_eq] at h ⊢
  intro o ho
  rw [h o ho]
  rfl

theorem Execute_content (v : VersionCommand) (args : List String) (w : World)
    (h : w.stdout.accepts 2 = true) :
    (v.Execute args w).2.stdout.content
      = w.stdout.content
          ++ ("Version: " ++ w.VERSION ++ "\n" ++ " Commit: " ++ w.COMMIT ++ "\n") := by
  obtain ⟨V, C, p, ⟨content, calls, outcomes⟩⟩ := w
  apply String.ext
  rcases outcomes with _ | ⟨o1, _ | ⟨o2, rest⟩⟩
  · simp [VersionCommand.Execute, Println, Stdout.Write, doPrintln_pair]
  · cases o1 <;>
      simp [VersionCommand.Execute, Println, Stdout.Write, doPrintln_pair, Stdout.accepts] at h ⊢
  · cases o1 <;> cases o2 <;>
      simp [VersionCommand.Execute, Println, Stdout.Write, doPrintln_pair, Stdout.accepts] at h ⊢

theorem Execute_frame (v : VersionCommand) (args : List String) (w : World) :
    (v.Execute args w).2.VERSION = w.VERSION ∧ (v.Execute args w).2.COMMIT = w.COMMIT
      ∧ (v.Execute args w).2.parser = w.parser := by
  unfold VersionCommand.Execute
  split
  · next h => simp [Println] at h; simp [← h.2]
  · split
    · next h1 _ _ h2 => simp [Println] at h1 h2; simp [← h2.2, ← h1.2]
    · next h1 _ _ _ h2 => simp [Println] at h1 h2; simp [← h2.2, ← h1.2]

/-- When one of the next two writes hits a closed pipe, the process is killed
inside `Execute`, which does not return. -/
theorem Execute_killed (v : VersionCommand) (args : List String) (w : World)
    (h : w.stdout.returns 2 = false) :
    (v.Execute args w).1 = none := by
  obtain ⟨V, C, p, ⟨content, calls, outcomes⟩⟩ := w
  rcases outcomes with _ | ⟨o1, _ | ⟨o2, rest⟩⟩
  · simp [Stdout.returns] at h
  · cases o1 <;>
      simp [VersionCommand.Execute, Println, Stdout.Write, Stdout.returns,
        WriteOutcome.returns] at h ⊢
  · cases o1 <;> cases o2 <;>
      simp [VersionCommand.Execute, Println, Stdout.Write, Stdout.returns,
        WriteOutcome.returns] at h ⊢

theorem returns_after_Execute (v : VersionCommand) (args : List String) (w : World)
    (h : w.stdout.returns 4 = true) :
    w.stdout.returns 2 = true ∧ (v.Execute args w).2.stdout.returns 2 = true := by
  have h4 : (w.stdout.outcomes.take (2 + 2)).all WriteOutcome.returns = true := h
  rw [List.take_add, List.all_append, Bool.and_eq_true] at h4
  refine ⟨h4.1, ?_⟩
  have ho := (Execute_of_returns v args w h4.1).2.2
  unfold Stdout.returns
  rw [ho]
  exact h4.2

theorem lineFeeds_append (s t : String) : lineFeeds (s ++ t) = lineFeeds s + lineFeeds t := by
  simp [lineFeeds]

theorem executeOutput_lineFeeds (args : List String) (w : World)
    (h : w.stdout.returns 2 = true) :
    lineFeeds (executeOutput args w) = 2 + lineFeeds w.VERSION + lineFeeds w.COMMIT := by
  have h1 : lineFeeds "Version: " = 0 := by decide
  have h2 : lineFeeds " Commit: " = 0 := by decide
  have h3 : lineFeeds "\n" = 1 := by decide
  rw [executeOutput_eq args w h]
  simp only [lineFeeds_append, h1, h2, h3]
  omega

theorem executeOutput_getLast (args : List String) (w : World)
    (h : w.stdout.returns 2 = true) :
    (executeOutput args w).data.getLast? = some '\n' := by
  rw [executeOutput_eq args w h, String.data_append]
  exact List.getLast?_concat _

/-- Two lists cut at an element that occurs in neither left part agree part by
part. -/
theorem append_cons_cancel {α : Type} {a : α} :
    ∀ {l1 l2 r1 r2 : List α}, a ∉ l1 → a ∉ l2 → l1 ++ a :: r1 = l2 ++ a :: r2 →
      l1 = l2 ∧ r1 = r2
  | [], [], _, _, _, _, h => by simpa using h
  | [], b :: l2, _, _, _, h2, h => by
    simp only [List.nil_append, List.cons_append, List.cons.injEq] at h
    exact absurd (h.1 ▸ List.mem_cons_self _ _) h2
  | b :: l1, [], _, _, h1, _, h => by
    simp only [List.nil_append, List.cons_append, List.cons.injEq] at h
    exact absurd (h.1 ▸ List.mem_cons_self _ _) h1
  | b :: l1, c :: l2, _, _, h1, h2, h => by
    simp only [List.cons_append, List.cons.injEq] at h
    have ih := append_cons_cancel (fun m => h1 (List.mem_cons_of_mem _ m))
      (fun m => h2 (List.mem_cons_of_mem _ m)) h.2
    exact ⟨by rw [h.1, ih.1], ih.2⟩

theorem executeOutput_inj (V1 V2 C1 C2 : String) (args1 args2 : List String)
    (p1 p2 : Parser) (s1 s2 : Stdout) (r1 : s1.returns 2 = true) (r2 : s2.returns 2 = true)
    (h1 : lineFeeds V1 = 0) (h2 : lineFeeds V2 = 0)
    (h : executeOutput args1 ⟨V1, C1, p1, s1⟩ = executeOutput args2 ⟨V2, C2, p2, s2⟩) :
    V1 = V2 ∧ C1 = C2 := by
  rw [executeOutput_eq args1 _ r1, executeOutput_eq args2 _ r2] at h
  have hd := congrArg String.data h
  simp only [String.data_append, List.append_assoc] at hd
  have hd1 := List.append_cancel_left hd
  have n1 : '\n' ∉ V1.data := List.count_eq_zero.mp h1
  have n2 : '\n' ∉ V2.data := List.count_eq_zero.mp h2
  simp only [List.singleton_append] at hd1
  obtain ⟨e1, e2⟩ := append_cons_cancel n1 n2 hd1
  have e3 := List.append_cancel_right (List.append_cancel_left e2)
  exact ⟨String.ext e1, String.ext e3⟩

/-! ## The claims -/

/-- C1: for all build strings `V` and `C`, every parser and every `args`: on
every standard output whose two writes return, with or without an error, the
text `Execute` hands to it is exactly
`"Version: " ++ V ++ "\n" ++ " Commit: " ++ C ++ "\n"`; and when standard
output takes the two writes, exactly that text is appended to the stream. -/
theorem C1_execute_output (V C : String) (parser : Parser) (stdout : Stdout)
    (args : List String) :
    (stdout.returns 2 = true →
        executeOutput args ⟨V, C, parser, stdout⟩
          = "Version: " ++ V ++ "\n" ++ " Commit: " ++ C ++ "\n")
      ∧ (stdout.accepts 2 = true →
          (versionCommand.Execute args ⟨V, C, parser, stdout⟩).2.stdout.content
            = stdout.content ++ ("Version: " ++ V ++ "\n" ++ " Commit: " ++ C ++ "\n")) :=
  ⟨executeOutput_eq args ⟨V, C, parser, stdout⟩,
    Execute_content versionCommand args ⟨V, C, parser, stdout⟩⟩

/-- Witness for C1: a build with version `v1.0.0` and commit `abc 123`, run
with one extra argument on an empty stream that takes both writes. -/
theorem witness_C1 :
    (Stdout.returns ⟨"", [], [WriteOutcome.ok, WriteOutcome.ok]⟩ 2 = true
      ∧ executeOutput ["extra"]
          ⟨"v1.0.0", "abc 123", ⟨[]⟩, ⟨"", [], [WriteOutcome.ok, WriteOutcome.ok]⟩⟩
        = "Version: " ++ "v1.0.0" ++ "\n" ++ " Commit: " ++ "abc 123" ++ "\n")
    ∧ (Stdout.accepts ⟨"", [], [WriteOutcome.ok, WriteOutcome.ok]⟩ 2 = true
      ∧ (versionCommand.Execute ["extra"]
          ⟨"v1.0.0", "abc 123", ⟨[]⟩, ⟨"", [], [WriteOutcome.ok, WriteOutcome.ok]⟩⟩).2.stdout.content
        = "" ++ ("Version: " ++ "v1.0.0" ++ "\n" ++ " Commit: " ++ "abc 123" ++ "\n")) :=
  ⟨⟨by decide,
      (C1_execute_output "v1.0.0" "abc 123" ⟨[]⟩ ⟨"", [], [WriteOutcome.ok, WriteOutcome.ok]⟩
        ["extra"]).1 (by decide)⟩,
    ⟨by decide,
      (C1_execute_output "v1.0.0" "abc 123" ⟨[]⟩ ⟨"", [], [WriteOutcome.ok, WriteOutcome.ok]⟩
        ["extra"]).2 (by decide)⟩⟩

/-- C2: the initial values are `VERSION = "dev"` and `COMMIT = "unknown"`, and
in a binary that keeps them, for every `args`, `Execute` hands exactly
`"Version: dev\n Commit: unknown\n"` to every standard output whose two writes
return; on a stream that takes every write, exactly that text is appended. -/
theorem C2_default_output (args : List String) (parser : Parser) (stdout : Stdout)
    (content : String) (calls : List String) :
    VERSION = "dev" ∧ COMMIT = "unknown"
      ∧ (stdout.returns 2 = true →
          executeOutput args (defaultWorld parser stdout) = "Version: dev\n Commit: unknown\n")
      ∧ (versionCommand.Execute args (defaultWorld parser ⟨content, calls, []⟩)).2.stdout.content
          = content ++ "Version: dev\n Commit: unknown\n" := by
  refine ⟨rfl, rfl, ?_, ?_⟩
  · intro h
    rw [executeOutput_eq args (defaultWorld parser stdout) h]
    rfl
  · rw [Execute_content versionCommand args (defaultWorld parser ⟨content, calls, []⟩) rfl]
    rfl

/-- Witness for C2: the default build run on a stream whose first write fails
with an error and whose second write succeeds. -/
theorem witness_C2 :
    Stdout.returns ⟨"", [], [WriteOutcome.fail 3, WriteOutcome.ok]⟩ 2 = true
      ∧ executeOutput [] (defaultWorld ⟨[]⟩ ⟨"", [], [WriteOutcome.fail 3, WriteOutcome.ok]⟩)
          = "Version: dev\n Commit: unknown\n" :=
  ⟨by decide,
    (C2_default_output [] ⟨[]⟩ ⟨"", [], [WriteOutcome.fail 3, WriteOutcome.ok]⟩ "" []).2.2.1
      (by decide)⟩

/-- C3, as stated, fails: when the first write on standard output hits a closed
pipe the process is killed inside the first `Println`, and `Execute` does not
return nil. -/
theorem C3_counterexample :
    ¬ ((versionCommand.Execute []
          ⟨"dev", "unknown", ⟨[]⟩, ⟨"", [], [WriteOutcome.sigpipe 0]⟩⟩).1 = some none) := by
  decide

/-- C3, amended: for every receiver, every `args` and every state, so for
every `VERSION` and `COMMIT`, when the two writes on standard output return,
with or without an error, `Execute` returns, and what it returns is nil. -/
theorem C3_execute_returns_nil (v : VersionCommand) (args : List String) (w : World)
    (h : w.stdout.returns 2 = true) :
    (v.Execute args w).1 = some none :=
  (Execute_of_returns v args w h).1

/-- Witness for C3: extra arguments, empty build strings, and a stream on which
both writes fail with an error. -/
theorem witness_C3 :
    Stdout.returns ⟨"", [], [WriteOutcome.fail 0, WriteOutcome.fail 2]⟩ 2 = true
      ∧ (versionCommand.Execute ["a", "b"]
          ⟨"", "", ⟨[]⟩, ⟨"", [], [WriteOutcome.fail 0, WriteOutcome.fail 2]⟩⟩).1 = some none :=
  ⟨by decide,
    C3_execute_returns_nil versionCommand ["a", "b"]
      ⟨"", "", ⟨[]⟩, ⟨"", [], [WriteOutcome.fail 0, WriteOutcome.fail 2]⟩⟩ (by decide)⟩

/-- C4: `args` is ignored: for any two argument lists, `Execute` run from the
same state gives the same result and leaves the same state, so it writes the
same text. -/
theorem C4_args_ignored (v : VersionCommand) (args1 args2 : List String) (w : World) :
    v.Execute args1 w = v.Execute args2 w
      ∧ executeOutput args1 w = executeOutput args2 w :=
  ⟨rfl, rfl⟩

/-- C5, as stated, fails: with the version `"a\nb"` the output holds three line
feeds, not two. -/
theorem C5_counterexample :
    ¬ (lineFeeds (executeOutput [] (World.ofBuild "a\nb" "c")) = 2
        ∧ (executeOutput [] (World.ofBuild "a\nb" "c")).data.getLast? = some '\n') := by
  decide

/-- C5, amended: when neither `V` nor `C` holds a line feed, the output, on a
standard output whose two writes return, is the line `"Version: " ++ V`, a line
feed, the line `" Commit: " ++ C`, a line feed; neither line holds a line feed,
so the output holds exactly two line feeds and the second is its last
character. -/
theorem C5_two_lines (V C : String) (parser : Parser) (stdout : Stdout) (args : List String)
    (hR : stdout.returns 2 = true) (hV : lineFeeds V = 0) (hC : lineFeeds C = 0) :
    executeOutput args ⟨V, C, parser, stdout⟩
        = ("Version: " ++ V) ++ "\n" ++ (" Commit: " ++ C) ++ "\n"
      ∧ lineFeeds ("Version: " ++ V) = 0
      ∧ lineFeeds (" Commit: " ++ C) = 0
      ∧ lineFeeds (executeOutput args ⟨V, C, parser, stdout⟩) = 2
      ∧ (executeOutput args ⟨V, C, parser, stdout⟩).data.getLast? = some '\n' := by
  have h1 : lineFeeds "Version: " = 0 := by decide
  have h2 : lineFeeds " Commit: " = 0 := by decide
  refine ⟨?_, ?_, ?_, ?_, executeOutput_getLast args _ hR⟩
  · rw [executeOutput_eq args _ hR]
    apply String.ext
    simp
  · rw [lineFeeds_append, h1, hV]
  · rw [lineFeeds_append, h2, hC]
  · rw [executeOutput_lineFeeds args _ hR]
    show 2 + lineFeeds V + lineFeeds C = 2
    rw [hV, hC]

/-- Witness for C5: version `v1.0.0` and commit `abc 123`. -/
theorem witness_C5 :
    Stdout.returns ⟨"", [], []⟩ 2 = true ∧ lineFeeds "v1.0.0" = 0 ∧ lineFeeds "abc 123" = 0
      ∧ (executeOutput [] ⟨"v1.0.0", "abc 123", ⟨[]⟩, ⟨"", [], []⟩⟩
          = ("Version: " ++ "v1.0.0") ++ "\n" ++ (" Commit: " ++ "abc 123") ++ "\n"
        ∧ lineFeeds ("Version: " ++ "v1.0.0") = 0
        ∧ lineFeeds (" Commit: " ++ "abc 123") = 0
        ∧ lineFeeds (executeOutput [] ⟨"v1.0.0", "abc 123", ⟨[]⟩, ⟨"", [], []⟩⟩) = 2
        ∧ (executeOutput [] ⟨"v1.0.0", "abc 123", ⟨[]⟩, ⟨"", [], []⟩⟩).data.getLast?
            = some '\n') :=
  ⟨by decide, by decide, by decide,
    C5_two_lines "v1.0.0" "abc 123" ⟨[]⟩ ⟨"", [], []⟩ [] (by decide) (by decide) (by decide)⟩

/-- C6: `init` adds exactly one command to the parser, after those already
there: its name is `"version"`, its short description
`"show the version of supervisor"`, its long description
`"display the supervisor version"` and its data the package's
`versionCommand`; `init` changes nothing else. -/
theorem C6_init_registers_version (w : World) :
    (init w).parser.commands
        = w.parser.commands
            ++ [⟨"version", "show the version of supervisor",
                  "display the supervisor version", CommandData.versionCommand⟩]
      ∧ (init w).parser.commands.length = w.parser.commands.length + 1
      ∧ (init w).VERSION = w.VERSION ∧ (init w).COMMIT = w.COMMIT
      ∧ (init w).stdout = w.stdout := by
  simp [init, Parser.AddCommand]

/-- C7: `Execute` leaves `VERSION`, `COMMIT` and the parser as they were in
every state, and when the writes of two runs return, a second `Execute`, with
any arguments, hands to standard output the same text as the first. -/
theorem C7_execute_frame (v : VersionCommand) (args args2 : List String) (w : World) :
    (v.Execute args w).2.VERSION = w.VERSION
      ∧ (v.Execute args w).2.COMMIT = w.COMMIT
      ∧ (v.Execute args w).2.parser = w.parser
      ∧ (w.stdout.returns 4 = true →
          executeOutput args2 (v.Execute args w).2 = executeOutput args w) := by
  obtain ⟨hV, hC, hP⟩ := Execute_frame v args w
  refine ⟨hV, hC, hP, ?_⟩
  intro h
  obtain ⟨r1, r2⟩ := returns_after_Execute v args w h
  rw [executeOutput_eq args2 _ r2, executeOutput_eq args w r1, hV, hC]

/-- Witness for C7: two runs on a stream whose second write fails with an
error and whose other writes succeed. -/
theorem witness_C7 :
    Stdout.returns ⟨"", [], [WriteOutcome.ok, WriteOutcome.fail 1]⟩ 4 = true
      ∧ executeOutput ["again"]
          (versionCommand.Execute []
            ⟨"v1.0.0", "abc 123", ⟨[]⟩, ⟨"", [], [WriteOutcome.ok, WriteOutcome.fail 1]⟩⟩).2
        = executeOutput []
            ⟨"v1.0.0", "abc 123", ⟨[]⟩, ⟨"", [], [WriteOutcome.ok, WriteOutcome.fail 1]⟩⟩ :=
  ⟨by decide,
    (C7_execute_frame versionCommand [] ["again"]
      ⟨"v1.0.0", "abc 123", ⟨[]⟩, ⟨"", [], [WriteOutcome.ok, WriteOutcome.fail 1]⟩⟩).2.2.2
      (by decide)⟩

/-- C8: when the two writes return, the two buffers `Execute` writes are
`"Version: "` followed by the version and a line feed, and `" Commit: "`
followed by the commit and a line feed; both labels are 9 characters long, so
in each buffer the value starts after the first 9 characters. -/
theorem C8_labels_aligned (args : List String) (w : World) (h : w.stdout.returns 2 = true) :
    executeCalls args w = ["Version: " ++ w.VERSION ++ "\n", " Commit: " ++ w.COMMIT ++ "\n"]
      ∧ "Version: ".length = 9 ∧ " Commit: ".length = 9
      ∧ (executeCalls args w).map (fun line => line.data.take 9)
          = ["Version: ".data, " Commit: ".data]
      ∧ (executeCalls args w).map (fun line => line.data.drop 9)
          = [w.VERSION.data ++ [ '\n'], w.COMMIT.data ++ [ '\n']] := by
  refine ⟨executeCalls_eq args w h, rfl, rfl, ?_, ?_⟩
  · rw [executeCalls_eq args w h]
    simp
  · rw [executeCalls_eq args w h]
    simp

/-- Witness for C8: version `v1.0.0` and commit `abc 123` on a fresh stream. -/
theorem witness_C8 :
    (World.ofBuild "v1.0.0" "abc 123").stdout.returns 2 = true
      ∧ (executeCalls [] (World.ofBuild "v1.0.0" "abc 123")
          = ["Version: " ++ (World.ofBuild "v1.0.0" "abc 123").VERSION ++ "\n",
              " Commit: " ++ (World.ofBuild "v1.0.0" "abc 123").COMMIT ++ "\n"]
        ∧ "Version: ".length = 9 ∧ " Commit: ".length = 9
        ∧ (executeCalls [] (World.ofBuild "v1.0.0" "abc 123")).map
              (fun line => line.data.take 9)
            = ["Version: ".data, " Commit: ".data]
        ∧ (executeCalls [] (World.ofBuild "v1.0.0" "abc 123")).map
              (fun line => line.data.drop 9)
            = [(World.ofBuild "v1.0.0" "abc 123").VERSION.data ++ [ '\n'],
                (World.ofBuild "v1.0.0" "abc 123").COMMIT.data ++ [ '\n']]) :=
  ⟨by decide, C8_labels_aligned [] (World.ofBuild "v1.0.0" "abc 123") (by decide)⟩

/-- C9, as stated, fails: when the first write hits a closed pipe the process
is killed inside the first `Println`; the Commit line is never attempted and
`Execute` does not return nil. -/
theorem C9_counterexample :
    ¬ ((versionCommand.Execute []
            ⟨"dev", "unknown", ⟨[]⟩, ⟨"", [], [WriteOutcome.sigpipe 0]⟩⟩).2.stdout.calls
          = [] ++ ["Version: " ++ "dev" ++ "\n", " Commit: " ++ "unknown" ++ "\n"]
        ∧ (versionCommand.Execute []
            ⟨"dev", "unknown", ⟨[]⟩, ⟨"", [], [WriteOutcome.sigpipe 0]⟩⟩).1 = some none) := by
  decide

/-- C9, amended: when the two writes return, whether they succeed or fail with
an error, `Execute` makes exactly two `Write` calls on standard output, first
the Version line and then the Commit line, uses up two outcomes, and returns
nil; in particular when both writes fail with an error, both `Println` calls
return a non-nil error and `Execute` still makes the second call and returns
nil.  A first write that hits a closed pipe is the only write made, and
`Execute` does not return. -/
theorem C9_write_failures_discarded (v : VersionCommand) (args : List String) (V C : String)
    (parser : Parser) (content : String) (calls : List String) (outcomes : List WriteOutcome)
    (n m : Nat) (h : Stdout.returns ⟨content, calls, outcomes⟩ 2 = true) :
    ((v.Execute args ⟨V, C, parser, ⟨content, calls, outcomes⟩⟩).2.stdout.calls
        = calls ++ ["Version: " ++ V ++ "\n", " Commit: " ++ C ++ "\n"]
      ∧ (v.Execute args ⟨V, C, parser, ⟨content, calls, outcomes⟩⟩).2.stdout.outcomes
        = outcomes.drop 2
      ∧ (v.Execute args ⟨V, C, parser, ⟨content, calls, outcomes⟩⟩).1 = some none)
    ∧ ((Println ["Version:", V]
          ⟨V, C, parser, ⟨content, calls,
            WriteOutcome.fail n :: WriteOutcome.fail m :: outcomes⟩⟩).1.map
          (fun r => r.2.isSome) = some true
      ∧ (Println [" Commit:", C]
          (Println ["Version:", V]
            ⟨V, C, parser, ⟨content, calls,
              WriteOutcome.fail n :: WriteOutcome.fail m :: outcomes⟩⟩).2).1.map
          (fun r => r.2.isSome) = some true
      ∧ (v.Execute args
          ⟨V, C, parser, ⟨content, calls,
            WriteOutcome.fail n :: WriteOutcome.fail m :: outcomes⟩⟩).2.stdout.calls
        = calls ++ ["Version: " ++ V ++ "\n", " Commit: " ++ C ++ "\n"]
      ∧ (v.Execute args
          ⟨V, C, parser, ⟨content, calls,
            WriteOutcome.fail n :: WriteOutcome.fail m :: outcomes⟩⟩).1 = some none)
    ∧ ((v.Execute args
          ⟨V, C, parser, ⟨content, calls, WriteOutcome.sigpipe n :: outcomes⟩⟩).2.stdout.calls
        = calls ++ ["Version: " ++ V ++ "\n"]
      ∧ (v.Execute args
          ⟨V, C, parser, ⟨content, calls, WriteOutcome.sigpipe n :: outcomes⟩⟩).1 = none) := by
  have hf : Stdout.returns
      ⟨content, calls, WriteOutcome.fail n :: WriteOutcome.fail m :: outcomes⟩ 2 = true := rfl
  obtain ⟨e1, e2, e3⟩ := Execute_of_returns v args ⟨V, C, parser, ⟨content, calls, outcomes⟩⟩ h
  obtain ⟨f1, f2, _⟩ := Execute_of_returns v args
    ⟨V, C, parser, ⟨content, calls, WriteOutcome.fail n :: WriteOutcome.fail m :: outcomes⟩⟩ hf
  refine ⟨⟨e2, e3, e1⟩, ⟨?_, ?_, f2, f1⟩, ?_, ?_⟩
  · simp [Println, Stdout.Write]
  · simp [Println, Stdout.Write]
  · simp [VersionCommand.Execute, Println, Stdout.Write, doPrintln_pair]
  · simp [VersionCommand.Execute, Println, Stdout.Write]

/-- Witness for C9: a stream whose first write fails with an error after three
characters and whose second write succeeds. -/
theorem witness_C9 :
    Stdout.returns ⟨"", [], [WriteOutcome.fail 3, WriteOutcome.ok]⟩ 2 = true
      ∧ (versionCommand.Execute ["x"]
            ⟨"v1.0.0", "abc 123", ⟨[]⟩,
              ⟨"", [], [WriteOutcome.fail 3, WriteOutcome.ok]⟩⟩).2.stdout.calls
          = [] ++ ["Version: " ++ "v1.0.0" ++ "\n", " Commit: " ++ "abc 123" ++ "\n"]
      ∧ (versionCommand.Execute ["x"]
            ⟨"v1.0.0", "abc 123", ⟨[]⟩,
              ⟨"", [], [WriteOutcome.fail 3, WriteOutcome.ok]⟩⟩).1 = some none :=
  ⟨by decide,
    (C9_write_failures_discarded versionCommand ["x"] "v1.0.0" "abc 123" ⟨[]⟩ "" []
      [WriteOutcome.fail 3, WriteOutcome.ok] 0 0 (by decide)).1.1,
    (C9_write_failures_discarded versionCommand ["x"] "v1.0.0" "abc 123" ⟨[]⟩ "" []
      [WriteOutcome.fail 3, WriteOutcome.ok] 0 0 (by decide)).1.2.2⟩

/-- C10: on standard outputs whose two writes return, for versions `V1`, `V2`
without a line feed and any commits `C1`, `C2`, equal outputs force `V1 = V2`
and `C1 = C2`; without the condition on the versions two distinct builds,
`("x", "y\n Commit: z")` and `("x\n Commit: y", "z")`, give the same output. -/
theorem C10_output_identifies_build :
    (∀ (V1 V2 C1 C2 : String) (args1 args2 : List String) (p1 p2 : Parser) (s1 s2 : Stdout),
        s1.returns 2 = true → s2.returns 2 = true →
        lineFeeds V1 = 0 → lineFeeds V2 = 0 →
        executeOutput args1 ⟨V1, C1, p1, s1⟩ = executeOutput args2 ⟨V2, C2, p2, s2⟩ →
        V1 = V2 ∧ C1 = C2)
      ∧ (executeOutput [] (World.ofBuild "x" "y\n Commit: z")
            = executeOutput [] (World.ofBuild "x\n Commit: y" "z")
          ∧ ¬ ("x" = "x\n Commit: y" ∧ "y\n Commit: z" = "z")) :=
  ⟨executeOutput_inj, by decide, by decide⟩

/-- Witness for C10: the same build, `v1.0.0` at `abc 123`, run twice with
different arguments, parsers and streams. -/
theorem witness_C10 :
    Stdout.returns ⟨"", [], []⟩ 2 = true
      ∧ Stdout.returns ⟨"out", [], [WriteOutcome.fail 0]⟩ 2 = true
      ∧ lineFeeds "v1.0.0" = 0 ∧ lineFeeds "v1.0.0" = 0
      ∧ executeOutput [] ⟨"v1.0.0", "abc 123", ⟨[]⟩, ⟨"", [], []⟩⟩
          = executeOutput ["x"] ⟨"v1.0.0", "abc 123", ⟨[]⟩, ⟨"out", [], [WriteOutcome.fail 0]⟩⟩
      ∧ ("v1.0.0" = "v1.0.0" ∧ "abc 123" = "abc 123") :=
  ⟨by decide, by decide, by decide, by decide, by decide,
    C10_output_identifies_build.1 "v1.0.0" "v1.0.0" "abc 123" "abc 123" [] ["x"] ⟨[]⟩ ⟨[]⟩
      ⟨"", [], []⟩ ⟨"out", [], [WriteOutcome.fail 0]⟩ (by decide) (by decide) (by decide)
      (by decide) (by decide)⟩

end Supervisord
